import Mathlib

/-!
Shallow embedding of the dhttp HTTP-client library (httpclient.go, the
facade file, and the utils file) in Lean 4, together with theorems
settling the specification claims about option merging, transport/jar
reuse, timeouts, redirect policy, request preparation and the POST
helpers.

Modelling conventions:
* Go `map[int]interface{}` option maps become `OptMap := Int → Option OptVal`,
  where `OptVal` is an inductive covering the dynamic value types the code
  inspects with type assertions (int, bool, string, cookie-jar instance,
  proxy function, redirect function, anything else).
* Go strings manipulated byte-wise by the utils file (`addQuery`,
  `checkParamFile`, multipart assembly) are modelled as `List Char`.
* Standard-library collaborators outside this repository (`http.NewRequest`
  URL parsing, `url.Parse`, `cookiejar.New`, actual network dialing and
  file I/O) are modelled as total; their failure modes are not what any
  claim is about.
* Transport and jar instances are given identities (`Nat` tags drawn from
  a fresh supply passed to `Do`) so that reuse of a cached instance versus
  construction of a new one is observable.
-/

namespace Dhttp

deriving instance DecidableEq for Except

/-- Constants from the `const` block of httpclient.go.  In Go, `iota` is the
index of the ConstSpec inside the block and `VERSION = "2.0"` occupies
index 0, so `PROXY_HTTP = iota` is 1. -/
def PROXY_HTTP : Int := 1

def PROXY_SOCKS4 : Int := 2

def PROXY_SOCKS5 : Int := 3

def PROXY_SOCKS4A : Int := 4

def OPT_AUTOREFERER : Int := 5

def OPT_FOLLOWLOCATION : Int := 6

def OPT_CONNECTTIMEOUT : Int := 7

def OPT_CONNECTTIMEOUT_MS : Int := 8

def OPT_MAXREDIRS : Int := 9

def OPT_PROXYTYPE : Int := 10

def OPT_TIMEOUT : Int := 11

def OPT_TIMEOUT_MS : Int := 12

def OPT_COOKIEJAR : Int := 13

def OPT_INTERFACE : Int := 14

def OPT_PROXY : Int := 15

def OPT_REFERER : Int := 16

def OPT_USERAGENT : Int := 17

def OPT_REDIRECT_POLICY : Int := 18

def OPT_PROXY_FUNC : Int := 19

/-- Dynamic value stored in a `map[int]interface{}` option map.  The code
only ever type-asserts against `int`, `bool`, `string`,
`http.CookieJar`, `func(*http.Request) (int, string, error)` and
`func(*http.Request, []*http.Request) error`; `vOther` stands for a value
of any other dynamic type. -/
inductive OptVal where
  | vInt (n : Int)
  | vBool (b : Bool)
  | vStr (s : String)
  | vJar
  | vProxyFunc
  | vRedirectFunc
  | vOther
  deriving DecidableEq

/-- A Go `map[int]interface{}`; a nil map and an empty map both read as
`fun _ => none`. -/
def OptMap : Type := Int → Option OptVal

/-- A Go `map[string]string` header map. -/
def HeaderMap : Type := String → Option String

def emptyOptMap : OptMap := fun _ => none

def emptyHeaderMap : HeaderMap := fun _ => none

def optSingleton (key : Int) (v : OptVal) : OptMap :=
  fun k => if k = key then some v else none

def optInsert (m : OptMap) (key : Int) (v : OptVal) : OptMap :=
  fun k => if k = key then some v else m k

def headerSet (h : HeaderMap) (key value : String) : HeaderMap :=
  fun k => if k = key then some value else h k

/-- `defaultOptions` from httpclient.go. -/
def defaultOptions : OptMap :=
  optInsert (optInsert (optInsert (optInsert (optInsert emptyOptMap
    OPT_FOLLOWLOCATION (OptVal.vBool true))
    OPT_MAXREDIRS (OptVal.vInt 10))
    OPT_AUTOREFERER (OptVal.vBool true))
    OPT_USERAGENT (OptVal.vStr ""))
    OPT_COOKIEJAR (OptVal.vBool true)

/-- `transportOptions` from httpclient.go. -/
def transportOptions : List Int :=
  [OPT_CONNECTTIMEOUT, OPT_CONNECTTIMEOUT_MS, OPT_PROXYTYPE, OPT_TIMEOUT,
   OPT_TIMEOUT_MS, OPT_INTERFACE, OPT_PROXY, OPT_PROXY_FUNC]

/-- `jarOptions` from httpclient.go. -/
def jarOptions : List Int := [OPT_COOKIEJAR]

/-- `hasOption` from the utils file, translated literally: the loop returns
true as soon as it sees a list element DIFFERENT from `opt` (the body
tests `opt != value`), and false only after the loop ends. -/
def hasOption (opt : Int) (options : List Int) : Bool :=
  options.any (fun value => opt != value)

/-- Shared shape of `mergeOptions` and `mergeHeaders` from the utils file:
start from an empty map and insert every key/value pair of every layer in
order, later layers overwriting earlier ones.  (Within one Go map each key
occurs once, so the unspecified per-map iteration order is irrelevant.) -/
def mergeMaps {α β : Type} (pieces : List (α → Option β)) : α → Option β :=
  pieces.foldl
    (fun merged piece => fun name =>
      match piece name with
      | some value => some value
      | none => merged name)
    (fun _ => none)

/-- `mergeOptions` from the utils file (latter layers have higher priority). -/
def mergeOptions (options : List OptMap) : OptMap := mergeMaps options

/-- `mergeHeaders` from the utils file (latter layers have higher priority). -/
def mergeHeaders (headers : List HeaderMap) : HeaderMap := mergeMaps headers

/-- Specification-side description of a right-biased merge: the value for a
key is the one from the last (highest-precedence) layer defining it. -/
def lastLayerValue {α β : Type} (pieces : List (α → Option β)) (k : α) : Option β :=
  pieces.reverse.findSome? (fun piece => piece k)

/-- The `connectTimeoutMS` resolution at the top of `prepareTransport`:
prefer `OPT_CONNECTTIMEOUT_MS`; else derive from `OPT_CONNECTTIMEOUT`
times 1000; else 0.  A present value of the wrong dynamic type is an
error. -/
def resolveConnectTimeoutMS (options : OptMap) : Except String Int :=
  match options OPT_CONNECTTIMEOUT_MS with
  | some (OptVal.vInt n) => Except.ok n
  | some _ => Except.error "OPT_CONNECTTIMEOUT_MS must be int"
  | none =>
    match options OPT_CONNECTTIMEOUT with
    | some (OptVal.vInt n) => Except.ok (n * 1000)
    | some _ => Except.error "OPT_CONNECTTIMEOUT must be int"
    | none => Except.ok 0

/-- The `timeoutMS` resolution in `prepareTransport`, same shape as the
connect timeout. -/
def resolveTimeoutMS (options : OptMap) : Except String Int :=
  match options OPT_TIMEOUT_MS with
  | some (OptVal.vInt n) => Except.ok n
  | some _ => Except.error "OPT_TIMEOUT_MS must be int"
  | none =>
    match options OPT_TIMEOUT with
    | some (OptVal.vInt n) => Except.ok (n * 1000)
    | some _ => Except.error "OPT_TIMEOUT must be int"
    | none => Except.ok 0

/-- The connect-timeout fixup of `prepareTransport`:
`if timeoutMS > 0 && (connectTimeoutMS > timeoutMS || connectTimeoutMS == 0)
then connectTimeoutMS = timeoutMS`. -/
def fixConnectTimeout (connectTimeoutMS timeoutMS : Int) : Int :=
  if 0 < timeoutMS ∧ (timeoutMS < connectTimeoutMS ∨ connectTimeoutMS = 0) then
    timeoutMS
  else
    connectTimeoutMS

/-- Proxy configuration of a transport: none, derived per-request from an
`OPT_PROXY_FUNC` callback, or a static URL from `OPT_PROXY`. -/
inductive ProxyCfg where
  | noProxy
  | proxyFromFunc
  | proxyURL (u : String)
  deriving DecidableEq

/-- The proxy-resolution block of `prepareTransport`.  `url.Parse` on the
prefixed static proxy string is a standard-library collaborator modelled
as total. -/
def resolveProxy (options : OptMap) : Except String ProxyCfg :=
  match options OPT_PROXY_FUNC with
  | some OptVal.vProxyFunc => Except.ok ProxyCfg.proxyFromFunc
  | some _ => Except.error "OPT_PROXY_FUNC is not a desired function"
  | none =>
    match options OPT_PROXYTYPE with
    | some (OptVal.vInt proxytype) =>
      if proxytype = PROXY_HTTP then
        match options OPT_PROXY with
        | some (OptVal.vStr proxy) => Except.ok (ProxyCfg.proxyURL ("http://" ++ proxy))
        | some _ => Except.error "OPT_PROXY must be string"
        | none => Except.ok ProxyCfg.noProxy
      else
        Except.error "OPT_PROXYTYPE must be int, and only PROXY_HTTP is currently supported"
    | some _ =>
      Except.error "OPT_PROXYTYPE must be int, and only PROXY_HTTP is currently supported"
    | none =>
      match options OPT_PROXY with
      | some (OptVal.vStr proxy) => Except.ok (ProxyCfg.proxyURL ("http://" ++ proxy))
      | some _ => Except.error "OPT_PROXY must be string"
      | none => Except.ok ProxyCfg.noProxy

/-- The observable configuration of the `http.Transport` built by
`prepareTransport`: the (clamped) connect timeout and overall timeout
captured by its `Dial` closure, and the proxy setting. -/
structure TransportConfig where
  connectTimeoutMS : Int
  timeoutMS : Int
  proxy : ProxyCfg
  deriving DecidableEq

/-- `prepareTransport` from httpclient.go: resolve the two timeouts, apply
the connect-timeout fixup, then resolve the proxy mode. -/
def prepareTransport (options : OptMap) : Except String TransportConfig :=
  match resolveConnectTimeoutMS options with
  | Except.error e => Except.error e
  | Except.ok connectTimeoutMS =>
    match resolveTimeoutMS options with
    | Except.error e => Except.error e
    | Except.ok timeoutMS =>
      match resolveProxy options with
      | Except.error e => Except.error e
      | Except.ok proxy =>
        Except.ok
          { connectTimeoutMS := fixConnectTimeout connectTimeoutMS timeoutMS,
            timeoutMS := timeoutMS,
            proxy := proxy }

/-- Modelled from the spec: the library's `Error` type with a `Code` and a
human-readable `Message` (its Go definition is not among the provided
source files; §7 of the spec describes it as a distinguished
classification carrying a reason). -/
structure GoError where
  Code : Int
  Message : String
  deriving DecidableEq

/-- Modelled from the spec: the distinguished redirect-policy error code
`ERR_REDIRECT_POLICY` (its Go definition is not among the provided source
files); its numeric value is irrelevant to every claim. -/
def ERR_REDIRECT_POLICY : Int := 1

/-- Outcome of the redirect-policy callback on one redirect hop. -/
inductive RedirectDecision where
  | allow
  | deny (e : GoError)
  deriving DecidableEq

/-- The decision logic of the redirect policy synthesized inside
`prepareRedirect`, as a function of the captured `followlocation` and
`maxredirs` values and of `len(via)`, the number of prior hops.  (On
allow, the callback additionally copies the previous hop's User-Agent
header forward; that side effect is not part of the decision and is not
modelled.) -/
def redirectDecision (followlocation : Bool) (maxredirs : Int) (viaLen : Nat) :
    RedirectDecision :=
  if followlocation = false ∨ maxredirs ≤ 0 then
    RedirectDecision.deny { Code := ERR_REDIRECT_POLICY, Message := "redirect not allowed" }
  else if maxredirs ≤ (viaLen : Int) then
    RedirectDecision.deny
      { Code := ERR_REDIRECT_POLICY,
        Message := "stopped after " ++ toString viaLen ++ " redirects" }
  else
    RedirectDecision.allow

/-- Which redirect policy `prepareRedirect` produces: the caller-supplied
override verbatim, or a synthesized policy characterised by the
`followlocation` and `maxredirs` values it captures (its per-hop decisions
are `redirectDecision followlocation maxredirs`). -/
inductive RedirectPolicy where
  | custom
  | synthesized (followlocation : Bool) (maxredirs : Int)
  deriving DecidableEq

/-- `prepareRedirect` from httpclient.go.  Without an `OPT_REDIRECT_POLICY`
override it reads `OPT_FOLLOWLOCATION` (Go zero value false when absent)
and `OPT_MAXREDIRS` (zero value 0 when absent), erroring on wrong dynamic
types. -/
def prepareRedirect (options : OptMap) : Except String RedirectPolicy :=
  match options OPT_REDIRECT_POLICY with
  | some OptVal.vRedirectFunc => Except.ok RedirectPolicy.custom
  | some _ => Except.error "OPT_REDIRECT_POLICY is not a desired function"
  | none =>
    match options OPT_FOLLOWLOCATION with
    | some (OptVal.vBool followlocation) =>
      match options OPT_MAXREDIRS with
      | some (OptVal.vInt maxredirs) =>
        Except.ok (RedirectPolicy.synthesized followlocation maxredirs)
      | some _ => Except.error "OPT_MAXREDIRS must be int"
      | none => Except.ok (RedirectPolicy.synthesized followlocation 0)
    | some _ => Except.error "OPT_FOLLOWLOCATION must be bool"
    | none =>
      match options OPT_MAXREDIRS with
      | some (OptVal.vInt maxredirs) =>
        Except.ok (RedirectPolicy.synthesized false maxredirs)
      | some _ => Except.error "OPT_MAXREDIRS must be int"
      | none => Except.ok (RedirectPolicy.synthesized false 0)

/-- What `prepareJar` produced: a nil jar, a fresh default in-memory jar
(`cookiejar.New(nil)`, a standard-library collaborator modelled as never
failing), or a caller-supplied jar instance. -/
inductive JarSpec where
  | nilJar
  | newDefaultJar
  | customJar
  deriving DecidableEq

/-- `prepareJar` from httpclient.go: a bool `OPT_COOKIEJAR` selects between
a fresh default jar (true) and no jar (false); a jar-typed value is used
directly; any other present type is an error; absent means no jar. -/
def prepareJar (options : OptMap) : Except String JarSpec :=
  match options OPT_COOKIEJAR with
  | some (OptVal.vBool optCookieJar) =>
    if optCookieJar then Except.ok JarSpec.newDefaultJar else Except.ok JarSpec.nilJar
  | some OptVal.vJar => Except.ok JarSpec.customJar
  | some _ => Except.error "invalid cookiejar"
  | none => Except.ok JarSpec.nilJar

/-- `prepareRequest` from httpclient.go, returning the header map of the
built request.  `http.NewRequest` (method validation and URL parsing) is a
standard-library collaborator modelled as total, and header-key
canonicalization is not modelled.  Note that a present `OPT_REFERER` or
`OPT_USERAGENT` whose value is not a string is skipped silently: the
inner type assertion guards the `Set` and no error is returned. -/
def prepareRequest (method url : String) (headers : HeaderMap) (options : OptMap) :
    Except String HeaderMap :=
  let reqHeaders := emptyHeaderMap
  let reqHeaders :=
    match options OPT_REFERER with
    | some (OptVal.vStr refererStr) => headerSet reqHeaders "Referer" refererStr
    | _ => reqHeaders
  let reqHeaders :=
    match options OPT_USERAGENT with
    | some (OptVal.vStr useragentStr) => headerSet reqHeaders "User-Agent" useragentStr
    | _ => reqHeaders
  Except.ok (fun k =>
    match headers k with
    | some v => some v
    | none => reqHeaders k)

/-- The `Client` struct of httpclient.go.  Transport and jar instances carry
a `Nat` identity so that reuse of a cached instance is observable; `lock`
models the lazily created mutex (`none` = no mutex yet, `some b` = mutex
created, held iff `b`). -/
structure Client where
  Options : OptMap
  Headers : HeaderMap
  oneTimeOptions : OptMap
  oneTimeHeaders : HeaderMap
  oneTimeCookies : List String
  transport : Option (Nat × TransportConfig)
  jar : Option (Nat × JarSpec)
  reuseTransport : Bool
  reuseJar : Bool
  lock : Option Bool

/-- The zero value `new(Client)` used by the facade's `init` function: every
field at its Go zero value, in particular BOTH reuse flags false. -/
def zeroClient : Client :=
  { Options := emptyOptMap,
    Headers := emptyHeaderMap,
    oneTimeOptions := emptyOptMap,
    oneTimeHeaders := emptyHeaderMap,
    oneTimeCookies := [],
    transport := none,
    jar := none,
    reuseTransport := false,
    reuseJar := false,
    lock := none }

/-- `NewClient` from httpclient.go: the zero value with both reuse flags set
to true. -/
def NewClient : Client :=
  { zeroClient with reuseTransport := true, reuseJar := true }

/-- The process-wide default client installed by the facade file's `init`
function via `client = new(Client)`. -/
def facadeClient : Client := zeroClient

/-- `Client.Begin`: lazily create the mutex and acquire it (blocking is not
modelled). -/
def Client.begin (client : Client) : Client :=
  { client with lock := some true }

/-- `Client.reset` from httpclient.go: clear all one-time state, restore
both reuse flags to true, and unlock the mutex if one was created. -/
def Client.reset (client : Client) : Client :=
  { client with
    oneTimeOptions := emptyOptMap,
    oneTimeHeaders := emptyHeaderMap,
    oneTimeCookies := [],
    reuseTransport := true,
    reuseJar := true,
    lock := client.lock.map (fun _ => false) }

/-- `Client.WithOption` from httpclient.go, translated literally: record the
one-time option, then clear `reuseTransport` when
`!hasOption(option, transportOptions)` and clear `reuseJar` when
`!hasOption(option, jarOptions)`. -/
def Client.withOption (client : Client) (option : Int) (value : OptVal) : Client :=
  let client := { client with oneTimeOptions := optInsert client.oneTimeOptions option value }
  let client :=
    if !hasOption option transportOptions then { client with reuseTransport := false }
    else client
  if !hasOption option jarOptions then { client with reuseJar := false }
  else client

/-- `Client.WithHeader` from httpclient.go. -/
def Client.withHeader (client : Client) (key value : String) : Client :=
  { client with oneTimeHeaders := headerSet client.oneTimeHeaders key value }

/-- `Client.WithCookie` from httpclient.go (cookies are abstracted to
strings; the claims only concern the list being cleared). -/
def Client.withCookie (client : Client) (cookies : List String) : Client :=
  { client with oneTimeCookies := client.oneTimeCookies ++ cookies }

/-- Error exit of `Client.Do`, tagged by which preparation step failed. -/
inductive DoErr where
  | transportErr (e : String)
  | jarErr (e : String)
  | redirectErr (e : String)
  | requestErr (e : String)
  deriving DecidableEq

/-- Observable outcome of a successful `Client.Do`: which transport instance
and jar instance the request was issued through, and which redirect policy
was installed.  (The network round trip itself is an external collaborator
and is not modelled; the response passes through unchanged.) -/
structure DoOk where
  usedTransport : Nat × TransportConfig
  usedJar : Option (Nat × JarSpec)
  policy : RedirectPolicy
  deriving DecidableEq

/-- The transport block of `Client.Do` (source lines "if client.transport ==
nil || !client.reuseTransport ..."): reuse the cached transport iff one
exists and `reuseTransport` holds; otherwise build a new one, caching it
on the client iff `reuseTransport` holds. -/
def transportStep (client : Client) (freshT : Nat) (options : OptMap) :
    Except String ((Nat × TransportConfig) × Client) :=
  match client.transport, client.reuseTransport with
  | some cached, true => Except.ok (cached, client)
  | _, _ =>
    match prepareTransport options with
    | Except.error e => Except.error e
    | Except.ok cfg =>
      Except.ok ((freshT, cfg),
        if client.reuseTransport then { client with transport := some (freshT, cfg) }
        else client)

/-- The jar block of `Client.Do`, analogous to `transportStep` (a nil jar
from `prepareJar` is cached as nil, matching the source's unconditional
`client.jar = jar` under `reuseJar`). -/
def jarStep (client : Client) (freshJ : Nat) (options : OptMap) :
    Except String (Option (Nat × JarSpec) × Client) :=
  match client.jar, client.reuseJar with
  | some cached, true => Except.ok (some cached, client)
  | _, _ =>
    match prepareJar options with
    | Except.error e => Except.error e
    | Except.ok JarSpec.nilJar =>
      Except.ok (none,
        if client.reuseJar then { client with jar := none } else client)
    | Except.ok spec =>
      Except.ok (some (freshJ, spec),
        if client.reuseJar then { client with jar := some (freshJ, spec) }
        else client)

/-- `Client.Do` from httpclient.go.  `freshT` and `freshJ` are the
identities given to a transport or jar instance in case one is newly
constructed.  Mirrors the source: merge the three option layers and the
three header layers, run the transport block and the jar block, then
`reset` (release the lock, clear one-time state), then build the redirect
policy and the request and issue the call.  Error paths before the `reset`
call `reset` themselves. -/
def Client.doRequest (client : Client) (freshT freshJ : Nat)
    (method url : String) (headers : HeaderMap) : Except DoErr DoOk × Client :=
  let options := mergeOptions [defaultOptions, client.Options, client.oneTimeOptions]
  let headers := mergeHeaders [client.Headers, client.oneTimeHeaders, headers]
  match transportStep client freshT options with
  | Except.error e => (Except.error (DoErr.transportErr e), client.reset)
  | Except.ok (transportInst, c1) =>
    match jarStep c1 freshJ options with
    | Except.error e => (Except.error (DoErr.jarErr e), c1.reset)
    | Except.ok (jarInst, c2) =>
      let c3 := c2.reset
      match prepareRedirect options with
      | Except.error e => (Except.error (DoErr.redirectErr e), c3)
      | Except.ok policy =>
        match prepareRequest method url headers options with
        | Except.error e => (Except.error (DoErr.requestErr e), c3)
        | Except.ok _ =>
          (Except.ok { usedTransport := transportInst, usedJar := jarInst, policy := policy },
           c3)

/-- A Go string as manipulated byte-wise by the utils file. -/
abbrev GoStr : Type := List Char

/-- A Go `url.Values` (`map[string][]string`), as a key/values association
list; a real Go map has unique keys and unspecified iteration order, and
every theorem below is insensitive to the order. -/
abbrev Values : Type := List (GoStr × List GoStr)

/-- `strings.Contains(s, "?")` specialised to the one-character needle used
by `addQuery`. -/
def goContainsChar (s : GoStr) (c : Char) : Bool :=
  s.any (fun x => x == c)

/-- `strings.HasSuffix`. -/
def goHasSuffix (s suffix : GoStr) : Bool :=
  suffix.isSuffixOf s

/-- Character kept verbatim by Go's `url.QueryEscape` (RFC 3986
unreserved: ASCII letters, digits, `-`, `_`, `.`, `~`). -/
def isUnescapedQueryChar (c : Char) : Bool :=
  decide ((65 ≤ c.toNat ∧ c.toNat ≤ 90) ∨ (97 ≤ c.toNat ∧ c.toNat ≤ 122) ∨
    (48 ≤ c.toNat ∧ c.toNat ≤ 57) ∨ c.toNat = 45 ∨ c.toNat = 95 ∨
    c.toNat = 46 ∨ c.toNat = 126)

/-- Upper-case hexadecimal digit, for percent-escapes. -/
def upperHexDigit (n : Nat) : Char :=
  if n < 10 then Char.ofNat (48 + n) else Char.ofNat (55 + n)

/-- UTF-8 bytes of a character (Go strings are byte strings; escaping acts
on bytes). -/
def utf8Bytes (c : Char) : List Nat :=
  let n := c.toNat
  if n < 128 then [n]
  else if n < 2048 then [192 + n / 64, 128 + n % 64]
  else if n < 65536 then [224 + n / 4096, 128 + (n / 64) % 64, 128 + n % 64]
  else [240 + n / 262144, 128 + (n / 4096) % 64, 128 + (n / 64) % 64, 128 + n % 64]

/-- Go's `url.QueryEscape` on one character: unreserved characters pass
through, space becomes `+`, everything else is percent-escaped byte by
byte with upper-case hex. -/
def queryEscapeChar (c : Char) : GoStr :=
  if isUnescapedQueryChar c then [c]
  else if c == ' ' then ['+']
  else (utf8Bytes c).flatMap (fun b => ['%', upperHexDigit (b / 16), upperHexDigit (b % 16)])

/-- Go's `url.QueryEscape` (standard-library collaborator used by
`url.Values.Encode`). -/
def queryEscape (s : GoStr) : GoStr :=
  s.flatMap queryEscapeChar

/-- Lexicographic byte order on keys, as used by the `sort.Strings` call
inside `url.Values.Encode`. -/
def goStrLe : GoStr → GoStr → Bool
  | [], _ => true
  | _ :: _, [] => false
  | x :: xs, y :: ys =>
    if x.toNat < y.toNat then true
    else if y.toNat < x.toNat then false
    else goStrLe xs ys

def insertSortedByKey (x : GoStr × List GoStr) :
    List (GoStr × List GoStr) → List (GoStr × List GoStr)
  | [] => [x]
  | y :: ys => if goStrLe x.1 y.1 then x :: y :: ys else y :: insertSortedByKey x ys

/-- Sort the parameter list by key (insertion sort; keys of a Go map are
unique, so stability is irrelevant). -/
def sortByKey (params : Values) : Values :=
  params.foldr insertSortedByKey []

/-- Join pre-rendered `k=v` pieces with `&`. -/
def joinAmp : List GoStr → GoStr
  | [] => []
  | [x] => x
  | x :: y :: ys => x ++ '&' :: joinAmp (y :: ys)

/-- Go's `url.Values.Encode` (standard-library collaborator): keys sorted,
each value rendered as `escape(k)=escape(v)` in value order, pieces joined
by `&`. -/
def encodeValues (params : Values) : GoStr :=
  joinAmp ((sortByKey params).flatMap
    (fun kv => kv.2.map (fun v => queryEscape kv.1 ++ '=' :: queryEscape v)))

/-- `addQuery` from the utils file: nothing to do for an empty parameter
set; otherwise append `?` if the URL has none, then `&` unless the URL now
ends in `?` or `&`, then the encoded parameters. -/
def addQuery (url : GoStr) (params : Values) : GoStr :=
  if params.length = 0 then url
  else
    let url := if !goContainsChar url '?' then url ++ ['?'] else url
    let url :=
      if !goHasSuffix url ['?'] && !goHasSuffix url ['&'] then url ++ ['&'] else url
    url ++ encodeValues params

/-- `checkParamFile` from the utils file.  The loop indexes `paramName[0]`
without a guard; `none` models the out-of-bounds panic on an empty
parameter name. -/
def checkParamFile (params : Values) : Option Bool :=
  match params with
  | [] => some false
  | (paramName, _) :: rest =>
    match paramName with
    | [] => none
    | c :: _ => if c == '@' then some true else checkParamFile rest

/-- One part written into the multipart body by `PostMultipart`: either a
file part (field name with the `@` stripped, path taken from the first
value) or a plain field. -/
inductive FormPart where
  | filePart (fieldName : GoStr) (path : GoStr)
  | fieldPart (name : GoStr) (value : GoStr)
  deriving DecidableEq

/-- The part-assembly loop of `PostMultipart`.  `name[0]` is indexed without
a guard (`none` models the panic on an empty name), and for a file
parameter `values[0]` is likewise indexed without a guard.  Opening and
streaming the file is external I/O and not modelled. -/
def postMultipartParts (params : Values) : Option (List FormPart) :=
  match params with
  | [] => some []
  | (name, values) :: rest =>
    match name with
    | [] => none
    | c :: nameTail =>
      if c == '@' then
        match values with
        | [] => none
        | v :: _ =>
          match postMultipartParts rest with
          | none => none
          | some parts => some (FormPart.filePart nameTail v :: parts)
      else
        match postMultipartParts rest with
        | none => none
        | some parts =>
          some (values.map (fun v => FormPart.fieldPart (c :: nameTail) v) ++ parts)

/-- How a `Post` call encodes its parameters. -/
inductive PostPlan where
  | multipartPlan (parts : List FormPart)
  | urlencodedPlan (contentType : GoStr) (body : GoStr)
  deriving DecidableEq

/-- `Client.Post` from httpclient.go, up to the point where it hands the
assembled body to `Do`: parameters containing a file marker are delegated
to `PostMultipart`; otherwise the body is the URL-encoded parameter set
with the form content type.  `none` models a panic. -/
def postPlan (params : Values) : Option PostPlan :=
  match checkParamFile params with
  | none => none
  | some true => (postMultipartParts params).map PostPlan.multipartPlan
  | some false =>
    some (PostPlan.urlencodedPlan
      "application/x-www-form-urlencoded".data (encodeValues params))

/-- The transport configuration that `prepareTransport` produces from the
library defaults alone: no timeouts, no proxy. -/
def defaultTransportConfig : TransportConfig :=
  { connectTimeoutMS := 0, timeoutMS := 0, proxy := ProxyCfg.noProxy }

/-- A client in the steady state reached after earlier plain requests cached
transport instance 7 and default-jar instance 3. -/
def clientWithCache : Client :=
  { NewClient with
    transport := some (7, defaultTransportConfig),
    jar := some (3, JarSpec.newDefaultJar) }

theorem mergeMaps_foldl_or {α β : Type} (pieces : List (α → Option β))
    (acc : α → Option β) (k : α) :
    (pieces.foldl
      (fun merged piece => fun name =>
        match piece name with
        | some value => some value
        | none => merged name)
      acc) k
      = (pieces.reverse.findSome? (fun piece => piece k)).or (acc k) := by
  induction pieces generalizing acc with
  | nil => simp
  | cons p ps ih =>
    simp only [List.foldl_cons, List.reverse_cons, List.findSome?_append, ih,
      List.findSome?_cons, List.findSome?_nil]
    cases hpk : p k <;> simp [hpk, Option.or_assoc]

theorem mergeMaps_eq_lastLayerValue {α β : Type} (pieces : List (α → Option β)) (k : α) :
    mergeMaps pieces k = lastLayerValue pieces k := by
  rw [mergeMaps, lastLayerValue, mergeMaps_foldl_or, Option.or_none]

theorem hasOption_transportOptions_true (opt : Int) :
    hasOption opt transportOptions = true := by
  simp only [hasOption, transportOptions, List.any_cons, List.any_nil,
    Bool.or_eq_true, bne_iff_ne, ne_eq, OPT_CONNECTTIMEOUT, OPT_CONNECTTIMEOUT_MS]
  omega

theorem isSuffixOf_append_singleton (l : List Char) (c : Char) :
    [c].isSuffixOf (l ++ [c]) = true := by
  simp [List.isSuffixOf, List.isPrefixOf]

theorem checkParamFile_of_nonempty_names (params : Values)
    (h : ∀ p ∈ params, p.1 ≠ []) :
    checkParamFile params = some (params.any (fun p => p.1.head? == some '@')) := by
  induction params with
  | nil => rfl
  | cons hd rest ih =>
    obtain ⟨name, vals⟩ := hd
    cases hname : name with
    | nil => exact absurd (hname ▸ rfl) (h (name, vals) (by simp))
    | cons c t =>
      have hrest : ∀ p ∈ rest, p.1 ≠ [] := fun p hp => h p (List.mem_cons_of_mem _ hp)
      by_cases hc : c = '@'
      · subst hc
        simp [checkParamFile, hname]
      · have hcb : (c == '@') = false := by simp [hc]
        simp [checkParamFile, hname, hcb, ih hrest]

theorem postMultipartParts_none_of_empty_name (params : Values)
    (h : ∃ p ∈ params, p.1 = []) :
    postMultipartParts params = none := by
  induction params with
  | nil => simp at h
  | cons hd rest ih =>
    obtain ⟨name, vals⟩ := hd
    obtain ⟨p, hp, hpe⟩ := h
    rcases List.mem_cons.mp hp with hhd | hrest
    · subst hhd
      simp only at hpe
      subst hpe
      rfl
    · have hnone := ih ⟨p, hrest, hpe⟩
      cases name with
      | nil => rfl
      | cons c t =>
        by_cases hc : c = '@'
        · subst hc
          cases vals <;> simp [postMultipartParts, hnone]
        · have hcb : (c == '@') = false := by simp [hc]
          simp [postMultipartParts, hcb, hnone]

theorem checkParamFile_ne_some_false_of_empty_name (params : Values)
    (h : ∃ p ∈ params, p.1 = []) :
    checkParamFile params ≠ some false := by
  induction params with
  | nil => simp at h
  | cons hd rest ih =>
    obtain ⟨name, vals⟩ := hd
    obtain ⟨p, hp, hpe⟩ := h
    rcases List.mem_cons.mp hp with hhd | hrest
    · subst hhd
      simp only at hpe
      subst hpe
      simp [checkParamFile]
    · cases name with
      | nil => simp [checkParamFile]
      | cons c t =>
        by_cases hc : c = '@'
        · subst hc
          simp [checkParamFile]
        · have hcb : (c == '@') = false := by simp [hc]
          simpa [checkParamFile, hcb] using ih ⟨p, hrest, hpe⟩

/-- Claim C4: for every sequence of option (or header) layers given
lowest-precedence first, the merge is right-biased: each key is bound to
the value from the last (highest-precedence) layer that defines it (and is
absent when no layer defines it), and the merge is a total pure function
with no error cases. -/
theorem merge_is_right_biased :
    (∀ (layers : List OptMap) (k : Int), mergeOptions layers k = lastLayerValue layers k) ∧
    (∀ (layers : List HeaderMap) (k : String), mergeHeaders layers k = lastLayerValue layers k) :=
  ⟨fun layers k => mergeMaps_eq_lastLayerValue layers k,
   fun layers k => mergeMaps_eq_lastLayerValue layers k⟩

/-- Claim C2: if an overall timeout is set and either no connect timeout is
set (resolved 0) or the connect timeout exceeds the overall timeout, the
effective connect timeout used for dialing is clamped down to the overall
timeout; concretely, timeout=5000ms with connectTimeout=8000ms dials with
5000ms, timeout=5000ms alone dials with 5000ms, and connectTimeout=3000ms
alone dials with 3000ms. -/
theorem connect_timeout_clamped :
    (∀ (options : OptMap) (t ct : Int) (cfg : TransportConfig),
        resolveTimeoutMS options = Except.ok t → 0 < t →
        resolveConnectTimeoutMS options = Except.ok ct →
        (ct = 0 ∨ t < ct) →
        prepareTransport options = Except.ok cfg →
        cfg.connectTimeoutMS = t) ∧
    prepareTransport (optInsert (optSingleton OPT_TIMEOUT_MS (OptVal.vInt 5000))
        OPT_CONNECTTIMEOUT_MS (OptVal.vInt 8000))
      = Except.ok { connectTimeoutMS := 5000, timeoutMS := 5000, proxy := ProxyCfg.noProxy } ∧
    prepareTransport (optSingleton OPT_TIMEOUT_MS (OptVal.vInt 5000))
      = Except.ok { connectTimeoutMS := 5000, timeoutMS := 5000, proxy := ProxyCfg.noProxy } ∧
    prepareTransport (optSingleton OPT_CONNECTTIMEOUT_MS (OptVal.vInt 3000))
      = Except.ok { connectTimeoutMS := 3000, timeoutMS := 0, proxy := ProxyCfg.noProxy } := by
  refine ⟨?_, by decide, by decide, by decide⟩
  intro options t ct cfg ht htpos hct hclamp hcfg
  unfold prepareTransport at hcfg
  simp only [hct, ht] at hcfg
  cases hproxy : resolveProxy options with
  | error e => simp [hproxy] at hcfg
  | ok proxy =>
    simp only [hproxy] at hcfg
    injection hcfg with hfields
    rw [← hfields]
    show fixConnectTimeout ct t = t
    rw [fixConnectTimeout, if_pos ⟨htpos, hclamp.elim Or.inr Or.inl⟩]

/-- Witness for C2: the clamp theorem applied to the concrete map with
timeout 5000ms and connect timeout 8000ms. -/
theorem connect_timeout_clamped_witness :
    ({ connectTimeoutMS := 5000, timeoutMS := 5000, proxy := ProxyCfg.noProxy }
      : TransportConfig).connectTimeoutMS = 5000 :=
  connect_timeout_clamped.1
    (optInsert (optSingleton OPT_TIMEOUT_MS (OptVal.vInt 5000))
      OPT_CONNECTTIMEOUT_MS (OptVal.vInt 8000))
    5000 8000 _ (by decide) (by decide) (by decide) (Or.inr (by decide)) (by decide)

/-- Claim C5: the redirect policy synthesized when no override is supplied
denies with the "redirect not allowed" classification whenever
follow-location is false or max-redirects is at most 0; denies with the
"stopped after N redirects" classification, N the number of prior hops,
whenever the prior-hop count reaches max-redirects; and allows otherwise.
With max-redirects 2 the third redirect (two prior hops) is denied, and
with follow-location false the very first redirect is denied; the library
defaults synthesize the policy with follow-location true and
max-redirects 10. -/
theorem redirect_policy_spec :
    (∀ (maxredirs : Int) (viaLen : Nat),
        redirectDecision false maxredirs viaLen
          = RedirectDecision.deny
              { Code := ERR_REDIRECT_POLICY, Message := "redirect not allowed" }) ∧
    (∀ (followlocation : Bool) (maxredirs : Int) (viaLen : Nat), maxredirs ≤ 0 →
        redirectDecision followlocation maxredirs viaLen
          = RedirectDecision.deny
              { Code := ERR_REDIRECT_POLICY, Message := "redirect not allowed" }) ∧
    (∀ (maxredirs : Int) (viaLen : Nat), 0 < maxredirs → maxredirs ≤ (viaLen : Int) →
        redirectDecision true maxredirs viaLen
          = RedirectDecision.deny
              { Code := ERR_REDIRECT_POLICY,
                Message := "stopped after " ++ toString viaLen ++ " redirects" }) ∧
    (∀ (maxredirs : Int) (viaLen : Nat), 0 < maxredirs → (viaLen : Int) < maxredirs →
        redirectDecision true maxredirs viaLen = RedirectDecision.allow) ∧
    redirectDecision true 2 2
      = RedirectDecision.deny
          { Code := ERR_REDIRECT_POLICY, Message := "stopped after 2 redirects" } ∧
    redirectDecision false 10 0
      = RedirectDecision.deny
          { Code := ERR_REDIRECT_POLICY, Message := "redirect not allowed" } ∧
    prepareRedirect (mergeOptions [defaultOptions, emptyOptMap, emptyOptMap])
      = Except.ok (RedirectPolicy.synthesized true 10) := by
  refine ⟨?_, ?_, ?_, ?_, by decide, by decide, by decide⟩
  · intro m n
    rw [redirectDecision, if_pos (Or.inl rfl)]
  · intro f m n hm
    rw [redirectDecision, if_pos (Or.inr hm)]
  · intro m n hm hn
    have h1 : ¬((true : Bool) = false ∨ m ≤ 0) := by
      rintro (hb | hb)
      · exact absurd hb (by decide)
      · omega
    rw [redirectDecision, if_neg h1, if_pos hn]
  · intro m n hm hn
    have h1 : ¬((true : Bool) = false ∨ m ≤ 0) := by
      rintro (hb | hb)
      · exact absurd hb (by decide)
      · omega
    have h2 : ¬(m ≤ (n : Int)) := by omega
    rw [redirectDecision, if_neg h1, if_neg h2]

/-- Witness for C5: the hop-limit conjunct applied at max-redirects 2 with 2
prior hops. -/
theorem redirect_policy_spec_witness :
    redirectDecision true 2 2
      = RedirectDecision.deny
          { Code := ERR_REDIRECT_POLICY,
            Message := "stopped after " ++ toString (2 : Nat) ++ " redirects" } :=
  redirect_policy_spec.2.2.1 2 2 (by decide) (by decide)

/-- Claim C1 (evaluating the code at the failing input): contrary to the
claim, `WithOption` NEVER clears `reuseTransport` — the inverted
`hasOption` helper returns true for every option against the 8-element
`transportOptions` list, and the guard negates it — so a one-time
`OPT_PROXY` override leaves `reuseTransport` true and `Do` reuses the
cached transport instance (identity 7) instead of building a new one.
The jar half of the rule does hold: `reuseJar` is cleared exactly when the
one-time option is `OPT_COOKIEJAR` (against the singleton `jarOptions`
list the two inversions cancel). -/
theorem withOption_transport_invalidation_broken :
    (∀ (client : Client) (option : Int) (value : OptVal),
        (client.withOption option value).reuseTransport = client.reuseTransport) ∧
    (∀ (client : Client) (option : Int) (value : OptVal),
        (client.withOption option value).reuseJar
          = (if option = OPT_COOKIEJAR then false else client.reuseJar)) ∧
    (clientWithCache.withOption OPT_PROXY (OptVal.vStr "localhost:8080")).reuseTransport
      = true ∧
    ((clientWithCache.withOption OPT_PROXY (OptVal.vStr "localhost:8080")).doRequest 99 98
        "GET" "http://example.com/" emptyHeaderMap).1
      = Except.ok
          { usedTransport := (7, defaultTransportConfig),
            usedJar := some (3, JarSpec.newDefaultJar),
            policy := RedirectPolicy.synthesized true 10 } := by
  refine ⟨?_, ?_, by decide, by decide⟩
  · intro client option value
    simp only [Client.withOption, hasOption_transportOptions_true, Bool.not_true,
      Bool.false_eq_true, if_false]
    split <;> rfl
  · intro client option value
    by_cases h : option = OPT_COOKIEJAR
    · subst h
      have hj : hasOption OPT_COOKIEJAR jarOptions = false := by
        simp [hasOption, jarOptions]
      simp [Client.withOption, hasOption_transportOptions_true, hj]
    · have hj : hasOption option jarOptions = true := by
        simp [hasOption, jarOptions, h]
      simp [Client.withOption, hasOption_transportOptions_true, hj, h]

theorem transportStep_lock (client : Client) (freshT : Nat) (options : OptMap)
    (tInst : Nat × TransportConfig) (c1 : Client)
    (h : transportStep client freshT options = Except.ok (tInst, c1)) :
    c1.lock = client.lock := by
  unfold transportStep at h
  split at h
  · simp only [Except.ok.injEq, Prod.mk.injEq] at h
    rw [← h.2]
  · split at h
    · exact absurd h (by simp)
    · simp only [Except.ok.injEq, Prod.mk.injEq] at h
      rw [← h.2]
      split <;> rfl

theorem jarStep_lock (client : Client) (freshJ : Nat) (options : OptMap)
    (jarInst : Option (Nat × JarSpec)) (c2 : Client)
    (h : jarStep client freshJ options = Except.ok (jarInst, c2)) :
    c2.lock = client.lock := by
  unfold jarStep at h
  split at h
  · simp only [Except.ok.injEq, Prod.mk.injEq] at h
    rw [← h.2]
  · split at h
    · exact absurd h (by simp)
    · simp only [Except.ok.injEq, Prod.mk.injEq] at h
      rw [← h.2]
      split <;> rfl
    · simp only [Except.ok.injEq, Prod.mk.injEq] at h
      rw [← h.2]
      split <;> rfl

/-- Claim C3: every `Do` call, whatever it returns, leaves the client with
all one-time options, headers and cookies cleared, both reuse flags
restored to true, and the lock (if one was ever created) released. -/
theorem doRequest_always_resets (client : Client) (freshT freshJ : Nat)
    (method url : String) (headers : HeaderMap) :
    (∀ k, ((client.doRequest freshT freshJ method url headers).2).oneTimeOptions k = none) ∧
    (∀ k, ((client.doRequest freshT freshJ method url headers).2).oneTimeHeaders k = none) ∧
    ((client.doRequest freshT freshJ method url headers).2).oneTimeCookies = [] ∧
    ((client.doRequest freshT freshJ method url headers).2).reuseTransport = true ∧
    ((client.doRequest freshT freshJ method url headers).2).reuseJar = true ∧
    ((client.doRequest freshT freshJ method url headers).2).lock
      = client.lock.map (fun _ => false) := by
  simp only [Client.doRequest]
  rcases htr : transportStep client freshT
      (mergeOptions [defaultOptions, client.Options, client.oneTimeOptions])
    with e | ⟨tInst, c1⟩ <;> simp only [htr]
  · exact ⟨fun k => rfl, fun k => rfl, rfl, rfl, rfl, rfl⟩
  · have h1 := transportStep_lock _ _ _ _ _ htr
    rcases hj : jarStep c1 freshJ
        (mergeOptions [defaultOptions, client.Options, client.oneTimeOptions])
      with e | ⟨jarInst, c2⟩ <;> simp only [hj]
    · exact ⟨fun k => rfl, fun k => rfl, rfl, rfl, rfl, by simp [Client.reset, h1]⟩
    · have h2 := jarStep_lock _ _ _ _ _ hj
      rcases hrd : prepareRedirect
          (mergeOptions [defaultOptions, client.Options, client.oneTimeOptions])
        with e | policy <;> simp only [hrd]
      · exact ⟨fun k => rfl, fun k => rfl, rfl, rfl, rfl, by simp [Client.reset, h1, h2]⟩
      · rcases hrq : prepareRequest method url
            (mergeHeaders [client.Headers, client.oneTimeHeaders, headers])
            (mergeOptions [defaultOptions, client.Options, client.oneTimeOptions])
          with e | hh <;> simp only [hrq]
        · exact ⟨fun k => rfl, fun k => rfl, rfl, rfl, rfl, by simp [Client.reset, h1, h2]⟩
        · exact ⟨fun k => rfl, fun k => rfl, rfl, rfl, rfl, by simp [Client.reset, h1, h2]⟩

/-- Counterexample to claim C6: a wrongly-typed (int) `OPT_REFERER` value is
silently ignored by `prepareRequest` — the call succeeds and the Referer
header is simply not set — instead of producing the configuration error
the claim requires for every wrongly-typed option value. -/
theorem prepareRequest_ignores_mistyped_referer :
    Except.map (fun h => h "Referer")
      (prepareRequest "GET" "http://example.com/" emptyHeaderMap
        (optSingleton OPT_REFERER (OptVal.vInt 42)))
      = Except.ok none := by decide

/-- Claim C6 as amended: wrongly-typed values for the options consumed by
`prepareTransport` (timeouts, proxy type, proxy target, proxy function),
`prepareRedirect` (redirect policy, follow-location, max-redirects) and
`prepareJar` (cookie jar) are configuration errors whose message names the
offending option; but the two options consumed by `prepareRequest`
(`OPT_REFERER`, `OPT_USERAGENT`) are silently skipped when wrongly typed:
the call succeeds and the header is left unset. -/
theorem option_type_mismatch_behavior :
    resolveTimeoutMS (optSingleton OPT_TIMEOUT_MS OptVal.vOther)
      = Except.error "OPT_TIMEOUT_MS must be int" ∧
    resolveTimeoutMS (optSingleton OPT_TIMEOUT OptVal.vOther)
      = Except.error "OPT_TIMEOUT must be int" ∧
    resolveConnectTimeoutMS (optSingleton OPT_CONNECTTIMEOUT_MS OptVal.vOther)
      = Except.error "OPT_CONNECTTIMEOUT_MS must be int" ∧
    resolveConnectTimeoutMS (optSingleton OPT_CONNECTTIMEOUT OptVal.vOther)
      = Except.error "OPT_CONNECTTIMEOUT must be int" ∧
    resolveProxy (optSingleton OPT_PROXY OptVal.vOther)
      = Except.error "OPT_PROXY must be string" ∧
    resolveProxy (optSingleton OPT_PROXY_FUNC OptVal.vOther)
      = Except.error "OPT_PROXY_FUNC is not a desired function" ∧
    resolveProxy (optSingleton OPT_PROXYTYPE OptVal.vOther)
      = Except.error "OPT_PROXYTYPE must be int, and only PROXY_HTTP is currently supported" ∧
    prepareRedirect (optSingleton OPT_FOLLOWLOCATION OptVal.vOther)
      = Except.error "OPT_FOLLOWLOCATION must be bool" ∧
    prepareRedirect (optSingleton OPT_MAXREDIRS OptVal.vOther)
      = Except.error "OPT_MAXREDIRS must be int" ∧
    prepareRedirect (optSingleton OPT_REDIRECT_POLICY OptVal.vOther)
      = Except.error "OPT_REDIRECT_POLICY is not a desired function" ∧
    prepareJar (optSingleton OPT_COOKIEJAR OptVal.vOther)
      = Except.error "invalid cookiejar" ∧
    Except.map (fun h => h "Referer")
      (prepareRequest "GET" "http://example.com/" emptyHeaderMap
        (optSingleton OPT_REFERER OptVal.vOther))
      = Except.ok none ∧
    Except.map (fun h => h "User-Agent")
      (prepareRequest "GET" "http://example.com/" emptyHeaderMap
        (optSingleton OPT_USERAGENT OptVal.vOther))
      = Except.ok none := by
  decide

/-- Counterexample to claim C7: the facade's default client (`new(Client)`)
does NOT behave like `NewClient()` — it starts with both reuse flags
false, so running the same two plain requests with the same fresh-identity
supply yields different results: the second request on the default client
is issued through a newly built transport/jar (identities 2 and 12), while
on a `NewClient` client it reuses the instances cached by the first
request (identities 1 and 11). -/
theorem facadeClient_differs_from_NewClient :
    facadeClient.reuseTransport = false ∧
    NewClient.reuseTransport = true ∧
    (((facadeClient.doRequest 1 11 "GET" "http://e/" emptyHeaderMap).2).doRequest 2 12
        "GET" "http://e/" emptyHeaderMap).1
      = Except.ok
          { usedTransport := (2, defaultTransportConfig),
            usedJar := some (12, JarSpec.newDefaultJar),
            policy := RedirectPolicy.synthesized true 10 } ∧
    (((NewClient.doRequest 1 11 "GET" "http://e/" emptyHeaderMap).2).doRequest 2 12
        "GET" "http://e/" emptyHeaderMap).1
      = Except.ok
          { usedTransport := (1, defaultTransportConfig),
            usedJar := some (11, JarSpec.newDefaultJar),
            policy := RedirectPolicy.synthesized true 10 } := by
  refine ⟨rfl, rfl, by decide, by decide⟩

/-- Claim C7 as amended: the process-wide default client is the zero-valued
`Client`: no defaults, no one-time state, no lock, no cached transport or
jar, and both reusability flags FALSE (not true as `NewClient` sets
them).  Its first `Do` therefore builds a transport and jar but caches
neither; the `reset` at the end of that `Do` restores both flags to true,
after which it behaves like a `NewClient` client (whose first `Do` does
cache both). -/
theorem facadeClient_is_zero_valued :
    facadeClient = zeroClient ∧
    facadeClient.reuseTransport = false ∧
    facadeClient.reuseJar = false ∧
    facadeClient.lock = none ∧
    (∀ k, facadeClient.oneTimeOptions k = none) ∧
    facadeClient.oneTimeCookies = [] ∧
    (facadeClient.doRequest 1 11 "GET" "http://e/" emptyHeaderMap).1
      = Except.ok
          { usedTransport := (1, defaultTransportConfig),
            usedJar := some (11, JarSpec.newDefaultJar),
            policy := RedirectPolicy.synthesized true 10 } ∧
    (facadeClient.doRequest 1 11 "GET" "http://e/" emptyHeaderMap).2.transport = none ∧
    (facadeClient.doRequest 1 11 "GET" "http://e/" emptyHeaderMap).2.jar = none ∧
    (facadeClient.doRequest 1 11 "GET" "http://e/" emptyHeaderMap).2.reuseTransport = true ∧
    (facadeClient.doRequest 1 11 "GET" "http://e/" emptyHeaderMap).2.reuseJar = true ∧
    (NewClient.doRequest 1 11 "GET" "http://e/" emptyHeaderMap).2.transport
      = some (1, defaultTransportConfig) ∧
    (NewClient.doRequest 1 11 "GET" "http://e/" emptyHeaderMap).2.jar
      = some (11, JarSpec.newDefaultJar) := by
  refine ⟨rfl, rfl, rfl, rfl, fun k => rfl, rfl, by decide, by decide, by decide,
    by decide, by decide, by decide, by decide⟩

/-- Claim C8: for a non-empty parameter set `addQuery` appends the encoded
parameters after inserting `?` when the URL contains none, or `&` when it
already has a query (and neither ends in `?` nor in `&`); with an empty
parameter set the URL is returned unchanged; and the two concrete examples
from the spec hold. -/
theorem addQuery_spec :
    (∀ (url : GoStr), addQuery url [] = url) ∧
    (∀ (url : GoStr) (params : Values), params ≠ [] →
        goContainsChar url '?' = false →
        addQuery url params = url ++ '?' :: encodeValues params) ∧
    (∀ (url : GoStr) (params : Values), params ≠ [] →
        goContainsChar url '?' = true →
        goHasSuffix url ['?'] = false → goHasSuffix url ['&'] = false →
        addQuery url params = url ++ '&' :: encodeValues params) ∧
    addQuery "http://x/y".data [("a".data, ["1".data])] = "http://x/y?a=1".data ∧
    addQuery "http://x/y?b=2".data [("a".data, ["1".data])] = "http://x/y?b=2&a=1".data := by
  refine ⟨?_, ?_, ?_, by decide, by decide⟩
  · intro url
    rfl
  · intro url params hne hq
    have hlen : ¬(params.length = 0) := by
      simpa [List.length_eq_zero] using hne
    have hs : goHasSuffix (url ++ ['?']) ['?'] = true :=
      isSuffixOf_append_singleton url '?'
    simp [addQuery, hlen, hq, hs, List.append_assoc]
  · intro url params hne hq h1 h2
    have hlen : ¬(params.length = 0) := by
      simpa [List.length_eq_zero] using hne
    simp [addQuery, hlen, hq, h1, h2, List.append_assoc]

/-- Witness for C8: the no-question-mark conjunct applied to the concrete
example URL and parameter set. -/
theorem addQuery_spec_witness :
    addQuery "http://x/y".data [("a".data, ["1".data])]
      = "http://x/y".data ++ '?' :: encodeValues [("a".data, ["1".data])] :=
  addQuery_spec.2.1 "http://x/y".data [("a".data, ["1".data])] (by decide) (by decide)

/-- Claim C9: provided no parameter name is empty (the panic case of claim
C10), `checkParamFile` reports exactly whether some name starts with the
`@` file marker, and `Post` dispatches on it: with such a name the request
is delegated to multipart encoding, without one it is sent with the
URL-encoded parameters as body under the form content type. -/
theorem post_dispatch (params : Values) (h : ∀ p ∈ params, p.1 ≠ []) :
    checkParamFile params = some (params.any (fun p => p.1.head? == some '@')) ∧
    (params.any (fun p => p.1.head? == some '@') = false →
      postPlan params
        = some (PostPlan.urlencodedPlan "application/x-www-form-urlencoded".data
            (encodeValues params))) ∧
    (params.any (fun p => p.1.head? == some '@') = true →
      postPlan params = Option.map PostPlan.multipartPlan (postMultipartParts params)) := by
  refine ⟨checkParamFile_of_nonempty_names params h, ?_, ?_⟩
  · intro hany
    simp [postPlan, checkParamFile_of_nonempty_names params h, hany]
  · intro hany
    simp [postPlan, checkParamFile_of_nonempty_names params h, hany]

/-- Witness for C9: the no-file-marker conjunct applied to the concrete
parameter set with the single pair a=1. -/
theorem post_dispatch_witness :
    postPlan [("a".data, ["1".data])]
      = some (PostPlan.urlencodedPlan "application/x-www-form-urlencoded".data
          (encodeValues [("a".data, ["1".data])])) :=
  (post_dispatch [("a".data, ["1".data])] (by decide)).2.1 (by decide)

/-- Claim C10: a parameter set containing an empty-string parameter name
makes both the `Post` pipeline and the `PostMultipart` part-assembly loop
index the first character of that name out of bounds — modelled as the
`none` (panic) outcome — instead of returning a result or an error. -/
theorem post_empty_name_panics (params : Values) (h : ∃ p ∈ params, p.1 = []) :
    postMultipartParts params = none ∧ postPlan params = none := by
  refine ⟨postMultipartParts_none_of_empty_name params h, ?_⟩
  cases hc : checkParamFile params with
  | none => simp [postPlan, hc]
  | some b =>
    cases b with
    | false => exact absurd hc (checkParamFile_ne_some_false_of_empty_name params h)
    | true => simp [postPlan, hc, postMultipartParts_none_of_empty_name params h]

/-- Witness for C10: the panic theorem applied to the concrete parameter set
whose only name is the empty string. -/
theorem post_empty_name_panics_witness :
    postMultipartParts [(([] : GoStr), ["v".data])] = none ∧
    postPlan [(([] : GoStr), ["v".data])] = none :=
  post_empty_name_panics [(([] : GoStr), ["v".data])] ⟨([], ["v".data]), by decide⟩
